import Mathlib

/-!
Shallow embedding of `lodestone-destination` (`src/src/lib.rs`) over the real
numbers, together with theorems settling the specification claims about the
`destination` function.

Floating-point (`f64`) arithmetic is modelled by `ℝ`; `f64::asin` is
`Real.arcsin`, `f64::atan2` is the piecewise `atan2` below, and a Rust panic
is modelled by `Except.error` carrying the panic message.
-/

open Real

noncomputable section

/-- Real-number semantics of `f64::to_radians`: `self * (PI / 180.0)`. -/
def toRadians (x : ℝ) : ℝ := x * (Real.pi / 180)

/-- Real-number semantics of `f64::to_degrees`: `self * (180.0 / PI)`. -/
def toDegrees (x : ℝ) : ℝ := x * (180 / Real.pi)

/-- Real-number semantics of `f64::atan2(y, x)` (signed zeros do not exist in
`ℝ`, so the `±0.0` cases collapse; `atan2(0, 0) = 0` as in IEEE 754). -/
def atan2 (y x : ℝ) : ℝ :=
  if 0 < x then Real.arctan (y / x)
  else if x < 0 ∧ 0 ≤ y then Real.arctan (y / x) + Real.pi
  else if x < 0 then Real.arctan (y / x) - Real.pi
  else if 0 < y then Real.pi / 2
  else if y < 0 then -(Real.pi / 2)
  else 0

/-- Modelled from the spec: `wgs84::RADIUS`, the Earth-radius constant from the
external `lodestone_core` geodesy module (not part of this repository's `src/`).
The spec's §6 reference value is 6,371,000 m, but that value contradicts the
repository's own tests: `test_simple` requires an eastward 55.6 km hop from the
origin to land at longitude 0.4994633°, which pins `RADIUS / 1000` to the
interval [6378.12, 6378.15] km (see `C4_counterexample`). The WGS84 semi-major
axis, 6,378,137 m, is the value consistent with every test in `src/src/lib.rs`,
so the model uses it. -/
def RADIUS : ℝ := 6378137

/-- Modelled from the spec: `utils::km_to_mi` from the external `lodestone_core`
module (not part of this repository's `src/`); reference factor
1 km = 0.621371 mi (spec §6), which also reproduces the repository's
miles-based test distance exactly. -/
def km_to_mi (km : ℝ) : ℝ := km * 0.621371

/-- The point type from the external `lodestone_point` crate, as used here:
an ordered coordinate list, longitude first. -/
structure FeaturePoint where
  coordinates : List ℝ

/-- `FeaturePoint::new(vec![...])`. -/
def FeaturePoint.new (coords : List ℝ) : FeaturePoint := ⟨coords⟩

/-- The recognized unit tokens of the `match` at `src/src/lib.rs:33-40`. -/
def recognizedUnits : List String :=
  ["degrees", "kilometers", "km", "meters", "m", "miles", "mi", "radians"]

/-- The `radius` match of `src/src/lib.rs:33-40`: resolves the angular radius
divisor from the unit token; `none` models the panic arm. -/
def radius (units : String) : Option ℝ :=
  if units = "degrees" then some (toDegrees 1)
  else if units = "kilometers" ∨ units = "km" then some (RADIUS / 1000)
  else if units = "meters" ∨ units = "m" then some RADIUS
  else if units = "miles" ∨ units = "mi" then some (km_to_mi (RADIUS / 1000))
  else if units = "radians" then some 1
  else none

/-- Lines 28-31 and 42-49 of `src/src/lib.rs`, given the resolved angular
radius divisor: converts the origin and bearing to radians, applies the
spherical forward-geodesic formula, and returns the destination
`(longitude, latitude)` pair in degrees. -/
def destCore (radius lngDeg latDeg distance bearing : ℝ) : ℝ × ℝ :=
  let lat := toRadians latDeg
  let lng := toRadians lngDeg
  let bearing_rad := toRadians bearing
  let dlat := Real.arcsin (Real.sin lat * Real.cos (distance / radius) +
              Real.cos lat * Real.sin (distance / radius) * Real.cos bearing_rad)
  let dlng := lng +
              atan2 (Real.sin bearing_rad * Real.sin (distance / radius) * Real.cos lat)
                (Real.cos (distance / radius) - Real.sin lat * Real.sin dlat)
  (toDegrees dlng, toDegrees dlat)

/-- `destination` (`src/src/lib.rs:22-50`). The panic on an unrecognized unit
token is modelled as `Except.error` carrying the panic message; the
trigonometric block `destCore` is only entered on the `some` branch of the
unit match, mirroring the source where the `match` panics before any
trigonometry runs. -/
def destination (point : FeaturePoint) (distance bearing : ℝ)
    (units : String) : Except String FeaturePoint :=
  let coord := point.coordinates
  match radius units with
  | none => .error ("Unknown unit of measurement: " ++ units)
  | some r =>
      let c := destCore r (coord.getD 0 0) (coord.getD 1 0) distance bearing
      .ok (FeaturePoint.new [c.1, c.2])

/-- The spec's algorithm (§4.1 steps 1-6), written from the spec's words:
`δ = distance / R`, `lat2 = asin(sin lat1 · cos δ + cos lat1 · sin δ · cos b)`,
`lng2 = lng1 + atan2(sin b · sin δ · cos lat1, cos δ − sin lat1 · sin lat2)`,
with degree/radian conversions at the boundary and the result ordered
longitude first. -/
def destinationSpec (lng1Deg lat1Deg distance bearing R : ℝ) : ℝ × ℝ :=
  let δ := distance / R
  let lat1 := toRadians lat1Deg
  let lng1 := toRadians lng1Deg
  let b := toRadians bearing
  let lat2 := Real.arcsin (Real.sin lat1 * Real.cos δ +
              Real.cos lat1 * Real.sin δ * Real.cos b)
  let lng2 := lng1 + atan2 (Real.sin b * Real.sin δ * Real.cos lat1)
                (Real.cos δ - Real.sin lat1 * Real.sin lat2)
  (toDegrees lng2, toDegrees lat2)

/-! ### Basic lemmas about the embedding -/

lemma toDegrees_toRadians (x : ℝ) : toDegrees (toRadians x) = x := by
  have hπ := Real.pi_ne_zero
  simp only [toDegrees, toRadians]
  field_simp

lemma toRadians_zero : toRadians 0 = 0 := by simp [toRadians]

lemma toRadians_ninety : toRadians 90 = Real.pi / 2 := by
  simp only [toRadians]; ring

lemma toRadians_one_eighty : toRadians 180 = Real.pi := by
  simp only [toRadians]; ring

lemma toRadians_add_360 (x : ℝ) : toRadians (x + 360) = toRadians x + 2 * Real.pi := by
  simp only [toRadians]; ring

lemma atan2_of_pos (y x : ℝ) (hx : 0 < x) : atan2 y x = Real.arctan (y / x) := by
  simp [atan2, hx]

lemma atan2_zero_of_nonneg (x : ℝ) (hx : 0 ≤ x) : atan2 0 x = 0 := by
  rcases hx.lt_or_eq with h | h
  · simp [atan2, h]
  · simp [atan2, ← h, lt_irrefl]

lemma radius_eq_none_of_not_mem (u : String) (h : u ∉ recognizedUnits) :
    radius u = none := by
  simp only [recognizedUnits, List.mem_cons, List.not_mem_nil, or_false, not_or] at h
  obtain ⟨h1, h2, h3, h4, h5, h6, h7, h8⟩ := h
  simp [radius, h1, h2, h3, h4, h5, h6, h7, h8]

lemma radius_isSome_of_mem (u : String) (h : u ∈ recognizedUnits) :
    ∃ R, radius u = some R := by
  simp only [recognizedUnits, List.mem_cons, List.not_mem_nil, or_false] at h
  rcases h with h | h | h | h | h | h | h | h <;> subst h <;> exact ⟨_, rfl⟩

lemma destination_of_none (p : FeaturePoint) (d b : ℝ) (u : String)
    (h : radius u = none) :
    destination p d b u = .error ("Unknown unit of measurement: " ++ u) := by
  simp [destination, h]

lemma destination_of_some (lng lat d b : ℝ) (u : String) (R : ℝ)
    (h : radius u = some R) :
    destination (FeaturePoint.new [lng, lat]) d b u =
      .ok (FeaturePoint.new
        [(destCore R lng lat d b).1, (destCore R lng lat d b).2]) := by
  simp [destination, h, FeaturePoint.new]

lemma destCore_eq_spec (R lng lat d b : ℝ) :
    destCore R lng lat d b = destinationSpec lng lat d b R := rfl

/-- Travelling due east (bearing 90) from a point on the equator moves the
longitude (in radians) by exactly the angular distance, as long as that
angular distance stays within a quarter turn. -/
lemma destCore_equator_east (R lng d : ℝ) (h1 : -(Real.pi / 2) < d / R)
    (h2 : d / R < Real.pi / 2) :
    destCore R lng 0 d 90 = (toDegrees (toRadians lng + d / R), 0) := by
  have hcos : 0 < Real.cos (d / R) := Real.cos_pos_of_mem_Ioo ⟨h1, h2⟩
  simp only [destCore, toRadians_zero, toRadians_ninety, Real.sin_zero, Real.cos_zero,
    Real.sin_pi_div_two, Real.cos_pi_div_two, zero_mul, mul_zero, add_zero, one_mul,
    mul_one, Real.arcsin_zero, sub_zero]
  rw [atan2_of_pos _ _ hcos, ← Real.tan_eq_sin_div_cos, Real.arctan_tan h1 h2,
    toDegrees, toDegrees]
  norm_num

/-! ### Claims -/

/-- C1: for every origin point, distance and bearing, `destination` with a
unit token outside the recognized list fails with the descriptive
`Unknown unit of measurement` error carrying the offending token itself; no
default unit is substituted (the result is an error, not a point), and the
error comes from the unit `match`, before the trigonometric block runs (it
does not depend on the numeric inputs). -/
theorem C1_unknown_unit_error (p : FeaturePoint) (d b : ℝ) (u : String)
    (h : u ∉ recognizedUnits) :
    destination p d b u = .error ("Unknown unit of measurement: " ++ u) :=
  destination_of_none p d b u (radius_eq_none_of_not_mem u h)

/-- C1 witness: the repository's own bad-unit test input, `"leagues"`. -/
theorem C1_unknown_unit_error_witness :
    destination (FeaturePoint.new [-122.4167, 37.7833]) 100 50 "leagues" =
      .error ("Unknown unit of measurement: " ++ "leagues") :=
  C1_unknown_unit_error (FeaturePoint.new [-122.4167, 37.7833]) 100 50 "leagues"
    (by decide)

/-- C2: for every origin, distance, bearing and recognized unit with divisor
`R`, `destination` returns exactly the point prescribed by the spec's forward
geodesic formula (`destinationSpec`, written from the spec's words), stored
longitude first. -/
theorem C2_matches_spec_formula (lng lat d b : ℝ) (u : String) (R : ℝ)
    (h : radius u = some R) :
    destination (FeaturePoint.new [lng, lat]) d b u =
      .ok (FeaturePoint.new
        [(destinationSpec lng lat d b R).1, (destinationSpec lng lat d b R).2]) := by
  rw [destination_of_some lng lat d b u R h, destCore_eq_spec]

/-- C2 witness: concrete instance with unit `"radians"` (divisor 1). -/
theorem C2_matches_spec_formula_witness :
    destination (FeaturePoint.new [3, 4]) 1 2 "radians" =
      .ok (FeaturePoint.new
        [(destinationSpec 3 4 1 2 1).1, (destinationSpec 3 4 1 2 1).2]) :=
  C2_matches_spec_formula 3 4 1 2 "radians" 1 rfl

/-- C3: the angular radius divisor table: `180/π` for `degrees`, Earth's
radius in kilometers for `kilometers`/`km`, Earth's radius in meters for
`meters`/`m`, the kilometer radius converted with `km_to_mi` for
`miles`/`mi`, `1` for `radians`; every other token (case variants and padded
variants included) resolves to nothing. -/
theorem C3_radius_table :
    radius "degrees" = some (180 / Real.pi) ∧
    radius "kilometers" = some (RADIUS / 1000) ∧
    radius "km" = some (RADIUS / 1000) ∧
    radius "meters" = some RADIUS ∧
    radius "m" = some RADIUS ∧
    radius "miles" = some (km_to_mi (RADIUS / 1000)) ∧
    radius "mi" = some (km_to_mi (RADIUS / 1000)) ∧
    radius "radians" = some 1 ∧
    ∀ u : String, u ∉ recognizedUnits → radius u = none := by
  refine ⟨?_, rfl, rfl, rfl, rfl, rfl, rfl, rfl, radius_eq_none_of_not_mem⟩
  show some (toDegrees 1) = some (180 / Real.pi)
  rw [toDegrees, one_mul]

/-- C3 witness: matching is case-sensitive and untrimmed — `"Km"` and
`" km"` are rejected while `"km"` resolves. -/
theorem C3_radius_table_witness :
    radius "Km" = none ∧ radius " km" = none ∧ radius "km" = some (RADIUS / 1000) :=
  ⟨C3_radius_table.2.2.2.2.2.2.2.2 "Km" (by decide),
   C3_radius_table.2.2.2.2.2.2.2.2 " km" (by decide),
   C3_radius_table.2.2.1⟩

/-- The repository's `test_simple` scenario, evaluated: 55.6 km due east from
the origin lands at longitude `(55.6 / 6378.137) · (180/π)` degrees. -/
lemma simple_hop_value :
    destination (FeaturePoint.new [0, 0]) 55.6 90 "km" =
      .ok (FeaturePoint.new [toDegrees (55.6 / (RADIUS / 1000)), 0]) := by
  have hπ3 := Real.pi_gt_three
  have hδpos : (0:ℝ) < 55.6 / (RADIUS / 1000) := by rw [RADIUS]; norm_num
  have hδlt : 55.6 / (RADIUS / 1000) < Real.pi / 2 := by
    have : 55.6 / ((RADIUS:ℝ) / 1000) < 1 := by rw [RADIUS]; norm_num
    linarith
  rw [destination_of_some 0 0 55.6 90 "km" (RADIUS / 1000) rfl,
    destCore_equator_east (RADIUS / 1000) 0 55.6 (by linarith) hδlt,
    toRadians_zero, zero_add]

/-- Numeric bound for the `test_simple` longitude under the WGS84 radius. -/
lemma simple_hop_lng_bound :
    |toDegrees (55.6 / (RADIUS / 1000)) - 0.4994633| ≤ 1e-6 := by
  have hπ0 : (0:ℝ) < Real.pi := Real.pi_pos
  have hπne : (Real.pi : ℝ) ≠ 0 := ne_of_gt hπ0
  have key : toDegrees (55.6 / (RADIUS / 1000)) = 10008000 / (6378137 * Real.pi) := by
    rw [toDegrees, RADIUS]
    field_simp
    ring
  have hd : (0:ℝ) < 6378137 * Real.pi := by positivity
  have hlow : (0.4994623:ℝ) ≤ 10008000 / (6378137 * Real.pi) := by
    rw [le_div_iff₀ hd]
    nlinarith [Real.pi_lt_d6]
  have hhigh : 10008000 / (6378137 * Real.pi) ≤ 0.4994643 := by
    rw [div_le_iff₀ hd]
    nlinarith [Real.pi_gt_d6]
  rw [key, abs_le]
  constructor <;> linarith

/-- C5: the simple eastward hop — origin `(0, 0)`, 55.6 with unit `"km"`,
bearing 90 — lands within `1e-6` degrees of longitude `0.4994633` and
latitude `0`, as the repository's `test_simple` expects (this pins the
Earth-radius constant near the WGS84 value; see `C4_counterexample`). -/
theorem C5_simple_eastward_hop :
    ∃ q, destination (FeaturePoint.new [0, 0]) 55.6 90 "km" = .ok q ∧
      |q.coordinates.getD 0 0 - 0.4994633| ≤ 1e-6 ∧
      |q.coordinates.getD 1 0 - 0| ≤ 1e-6 := by
  refine ⟨_, simple_hop_value, ?_, ?_⟩
  · simpa [FeaturePoint.new] using simple_hop_lng_bound
  · simp [FeaturePoint.new]
    norm_num

/-- C4 counterexample: the claimed constant 6,371,000 m is wrong for this
code. `radius "meters"` does not resolve to 6371000, and with a 6371 km
radius the repository's own `test_simple` scenario would land more than
`1e-6` degrees away from the expected longitude `0.4994633`, while the
WGS84 radius 6378.137 km lands within `1e-6` of it. -/
theorem C4_counterexample :
    radius "meters" ≠ some 6371000 ∧
    1e-6 < |(destCore (6371000 / 1000) 0 0 55.6 90).1 - 0.4994633| ∧
    |(destCore (RADIUS / 1000) 0 0 55.6 90).1 - 0.4994633| ≤ 1e-6 := by
  have hπ0 : (0:ℝ) < Real.pi := Real.pi_pos
  have hπ3 := Real.pi_gt_three
  refine ⟨?_, ?_, ?_⟩
  · intro hcontra
    rw [show radius "meters" = some RADIUS from rfl, RADIUS] at hcontra
    have h6 := Option.some.inj hcontra
    norm_num at h6
  · have hδlt : (55.6:ℝ) / (6371000 / 1000) < Real.pi / 2 := by
      have : (55.6:ℝ) / (6371000 / 1000) < 1 := by norm_num
      linarith
    rw [destCore_equator_east (6371000 / 1000) 0 55.6 (by norm_num; linarith) hδlt,
      toRadians_zero, zero_add]
    have key : toDegrees ((55.6:ℝ) / (6371000 / 1000)) = 10008000 / (6371000 * Real.pi) := by
      rw [toDegrees]
      field_simp
      ring
    have hd : (0:ℝ) < 6371000 * Real.pi := by positivity
    have hgt : (0.4994643:ℝ) < 10008000 / (6371000 * Real.pi) := by
      rw [lt_div_iff₀ hd]
      nlinarith [Real.pi_lt_d6]
    have habs : toDegrees ((55.6:ℝ) / (6371000 / 1000)) - 0.4994633 ≤
        |toDegrees ((55.6:ℝ) / (6371000 / 1000)) - 0.4994633| := le_abs_self _
    rw [key] at habs ⊢
    linarith
  · have hδlt : 55.6 / (RADIUS / 1000) < Real.pi / 2 := by
      have : 55.6 / ((RADIUS:ℝ) / 1000) < 1 := by rw [RADIUS]; norm_num
      linarith
    have hδpos : (0:ℝ) < 55.6 / (RADIUS / 1000) := by rw [RADIUS]; norm_num
    rw [destCore_equator_east (RADIUS / 1000) 0 55.6 (by linarith) hδlt,
      toRadians_zero, zero_add]
    exact simple_hop_lng_bound

/-- C4 amended: the Earth-radius constant consumed by `destination` is the
WGS84 semi-major axis, 6,378,137 m — the value the repository's tests pin —
so the divisor for `"meters"` is 6378137 and for `"kilometers"` 6378.137. -/
theorem C4_amended_radius_wgs84 :
    RADIUS = 6378137 ∧ radius "meters" = some 6378137 ∧
    radius "kilometers" = some (6378137 / 1000) :=
  ⟨rfl, rfl, rfl⟩

/-- C10: the returned longitude is the raw sum of the origin longitude and
the atan2 term, never wrapped into `[-180, 180]`: one radian due east from
`(180, 0)` returns longitude `(π + 1)·(180/π) = 180 + 180/π > 180`. -/
theorem C10_longitude_not_wrapped :
    destination (FeaturePoint.new [180, 0]) 1 90 "radians" =
      .ok (FeaturePoint.new [toDegrees (Real.pi + 1), 0]) ∧
    180 < toDegrees (Real.pi + 1) := by
  have hπ3 := Real.pi_gt_three
  have hπ0 : (0:ℝ) < Real.pi := Real.pi_pos
  constructor
  · rw [destination_of_some 180 0 1 90 "radians" 1 rfl,
      destCore_equator_east 1 180 1 (by norm_num; linarith) (by norm_num; linarith),
      toRadians_one_eighty]
    norm_num
  · have h : toDegrees (Real.pi + 1) = 180 + 180 / Real.pi := by
      rw [toDegrees]
      field_simp
      ring
    rw [h]
    have : (0:ℝ) < 180 / Real.pi := by positivity
    linarith

/-! ### Zero distance, unit equivalence, bearing periodicity, latitude range -/

lemma destCore_zero_dist (R lng lat b : ℝ) (hlat1 : -90 ≤ lat) (hlat2 : lat ≤ 90) :
    destCore R lng lat 0 b = (lng, lat) := by
  have hπ : (0:ℝ) < Real.pi := Real.pi_pos
  have hlo : -(Real.pi / 2) ≤ toRadians lat := by
    simp only [toRadians]; nlinarith
  have hhi : toRadians lat ≤ Real.pi / 2 := by
    simp only [toRadians]; nlinarith
  have harc : Real.arcsin (Real.sin (toRadians lat)) = toRadians lat :=
    Real.arcsin_sin hlo hhi
  have hx : (0:ℝ) ≤ 1 - Real.sin (toRadians lat) * Real.sin (toRadians lat) := by
    nlinarith [Real.sin_sq_add_cos_sq (toRadians lat), sq_nonneg (Real.cos (toRadians lat))]
  simp only [destCore, zero_div, Real.sin_zero, Real.cos_zero, mul_one, mul_zero,
    zero_mul, add_zero, harc]
  rw [atan2_zero_of_nonneg _ hx, add_zero, toDegrees_toRadians, toDegrees_toRadians]

/-- C6 counterexample: with origin latitude 180 (outside `[-90, 90]`), zero
distance does not return the origin: `asin(sin 180°) = 0°`, so the point comes
back with latitude 0, a 180-degree discrepancy — far beyond any
floating-point tolerance. -/
theorem C6_counterexample :
    destination (FeaturePoint.new [0, 180]) 0 0 "radians" =
      .ok (FeaturePoint.new [0, 0]) ∧
    ¬ |(0:ℝ) - 180| ≤ 1e-6 := by
  constructor
  · rw [destination_of_some 0 180 0 0 "radians" 1 rfl]
    have hc : destCore 1 0 180 0 0 = (0, 0) := by
      simp only [destCore, zero_div, Real.sin_zero, Real.cos_zero, mul_one, mul_zero,
        zero_mul, add_zero, toRadians_zero, toRadians_one_eighty, Real.sin_pi,
        Real.arcsin_zero, sub_zero]
      rw [atan2_zero_of_nonneg 1 (by norm_num), add_zero]
      simp [toDegrees]
    rw [hc]
  · norm_num

/-- C6 amended: the zero-distance identity holds exactly for every origin
whose latitude lies in the spec's declared input domain `[-90, 90]` degrees:
`destination(p, 0, b, u) = p` for every bearing and recognized unit. -/
theorem C6_amended_zero_distance (lng lat b : ℝ) (u : String) (R : ℝ)
    (h : radius u = some R) (hlat1 : -90 ≤ lat) (hlat2 : lat ≤ 90) :
    destination (FeaturePoint.new [lng, lat]) 0 b u =
      .ok (FeaturePoint.new [lng, lat]) := by
  rw [destination_of_some lng lat 0 b u R h, destCore_zero_dist R lng lat b hlat1 hlat2]

/-- C6 witness: zero distance from `(5, 45)` with unit `"m"`. -/
theorem C6_amended_zero_distance_witness :
    destination (FeaturePoint.new [5, 45]) 0 123 "m" =
      .ok (FeaturePoint.new [5, 45]) :=
  C6_amended_zero_distance 5 45 123 "m" RADIUS rfl (by norm_num) (by norm_num)

lemma div_mul_cancel_div (d R c : ℝ) (hc : c ≠ 0) : d * c / (R * c) = d / R := by
  rcases eq_or_ne R 0 with h | h
  · simp [h]
  · field_simp
    ring

lemma destCore_scale (R c lng lat d b : ℝ) (hc : c ≠ 0) :
    destCore (R * c) lng lat (d * c) b = destCore R lng lat d b := by
  simp only [destCore, div_mul_cancel_div d R c hc]

/-- C7: unit equivalence — for any fixed origin and bearing and non-negative
distance `d` in kilometers, computing with `d` and `"km"` gives exactly the
same result as computing with `km_to_mi d` (the 0.621371 mi/km conversion)
and `"mi"`: both divisor and distance scale by the same factor, which
cancels in the angular distance. -/
theorem C7_unit_equivalence (lng lat d b : ℝ) (_hd : 0 ≤ d) :
    destination (FeaturePoint.new [lng, lat]) d b "km" =
      destination (FeaturePoint.new [lng, lat]) (km_to_mi d) b "mi" := by
  rw [destination_of_some lng lat d b "km" (RADIUS / 1000) rfl,
    destination_of_some lng lat (km_to_mi d) b "mi" (km_to_mi (RADIUS / 1000)) rfl]
  have hs : destCore (km_to_mi (RADIUS / 1000)) lng lat (km_to_mi d) b =
      destCore (RADIUS / 1000) lng lat d b := by
    simp only [km_to_mi]
    exact destCore_scale (RADIUS / 1000) 0.621371 lng lat d b (by norm_num)
  rw [hs]

/-- C7 witness: origin `(0, 0)`, 100 km, bearing 45. -/
theorem C7_unit_equivalence_witness :
    destination (FeaturePoint.new [0, 0]) 100 45 "km" =
      destination (FeaturePoint.new [0, 0]) (km_to_mi 100) 45 "mi" :=
  C7_unit_equivalence 0 0 100 45 (by norm_num)

lemma destCore_bearing_add_360 (R lng lat d b : ℝ) :
    destCore R lng lat d (b + 360) = destCore R lng lat d b := by
  simp only [destCore, toRadians_add_360, Real.sin_add_two_pi, Real.cos_add_two_pi]

/-- C8: bearing periodicity — for every point, distance and recognized unit,
the bearing `b + 360` produces exactly the same destination as `b` (the
bearing enters only through its sine and cosine, which have period `2π`). -/
theorem C8_bearing_periodicity (p : FeaturePoint) (d b : ℝ) (u : String)
    (h : u ∈ recognizedUnits) :
    destination p d b u = destination p d (b + 360) u := by
  obtain ⟨R, hR⟩ := radius_isSome_of_mem u h
  simp only [destination, hR, destCore_bearing_add_360]

/-- C8 witness: concrete instance with unit `"degrees"`. -/
theorem C8_bearing_periodicity_witness :
    destination (FeaturePoint.new [1, 2]) 3 4 "degrees" =
      destination (FeaturePoint.new [1, 2]) 3 (4 + 360) "degrees" :=
  C8_bearing_periodicity (FeaturePoint.new [1, 2]) 3 4 "degrees" (by decide)

lemma asin_arg_bounds (L δ β : ℝ) :
    -1 ≤ Real.sin L * Real.cos δ + Real.cos L * Real.sin δ * Real.cos β ∧
    Real.sin L * Real.cos δ + Real.cos L * Real.sin δ * Real.cos β ≤ 1 := by
  have hL := Real.sin_sq_add_cos_sq L
  have hδ := Real.sin_sq_add_cos_sq δ
  have hβ1 := Real.neg_one_le_cos β
  have hβ2 := Real.cos_le_one β
  have hk2 : (0:ℝ) ≤ 1 - Real.cos β ^ 2 := by nlinarith
  have hprod : (Real.sin L ^ 2 + Real.cos L ^ 2) *
      (Real.sin δ ^ 2 + Real.cos δ ^ 2) = 1 := by rw [hL, hδ]; norm_num
  have hss : (0:ℝ) ≤ Real.sin δ ^ 2 + Real.cos δ ^ 2 := by positivity
  have hP2 : (0:ℝ) ≤ Real.cos L ^ 2 * (Real.sin δ ^ 2 + Real.cos δ ^ 2) *
      (1 - Real.cos β ^ 2) :=
    mul_nonneg (mul_nonneg (sq_nonneg _) hss) hk2
  have hsq : (Real.sin L * Real.cos δ + Real.cos L * Real.sin δ * Real.cos β) ^ 2 ≤ 1 := by
    nlinarith [sq_nonneg (Real.sin L * Real.sin δ -
      Real.cos L * Real.cos δ * Real.cos β), hP2, hprod]
  constructor
  · nlinarith [hsq, sq_nonneg (Real.sin L * Real.cos δ +
      Real.cos L * Real.sin δ * Real.cos β + 1)]
  · nlinarith [hsq, sq_nonneg (Real.sin L * Real.cos δ +
      Real.cos L * Real.sin δ * Real.cos β - 1)]

lemma toDegrees_arcsin_bounds (x : ℝ) :
    -90 ≤ toDegrees (Real.arcsin x) ∧ toDegrees (Real.arcsin x) ≤ 90 := by
  have h1 := Real.arcsin_le_pi_div_two x
  have h2 := Real.neg_pi_div_two_le_arcsin x
  have hπ : (0:ℝ) < Real.pi := Real.pi_pos
  have hscale : (0:ℝ) ≤ 180 / Real.pi := by positivity
  have hlo : -(Real.pi / 2) * (180 / Real.pi) ≤ Real.arcsin x * (180 / Real.pi) :=
    mul_le_mul_of_nonneg_right h2 hscale
  have hhi : Real.arcsin x * (180 / Real.pi) ≤ Real.pi / 2 * (180 / Real.pi) :=
    mul_le_mul_of_nonneg_right h1 hscale
  have e1 : -(Real.pi / 2) * (180 / Real.pi) = -90 := by
    field_simp
    ring
  have e2 : Real.pi / 2 * (180 / Real.pi) = 90 := by
    field_simp
    ring
  simp only [toDegrees]
  rw [e1] at hlo
  rw [e2] at hhi
  exact ⟨hlo, hhi⟩

/-- C9: for every origin, distance, bearing and recognized unit, the argument
handed to `asin` lies in `[-1, 1]` (so `asin` never sees an out-of-domain
input), and the latitude of the returned point lies in `[-90, 90]` degrees,
with no restriction on the origin latitude or the sign of the distance. -/
theorem C9_latitude_in_range (lng lat d b : ℝ) (u : String) (R : ℝ)
    (h : radius u = some R) :
    (-1 ≤ Real.sin (toRadians lat) * Real.cos (d / R) +
      Real.cos (toRadians lat) * Real.sin (d / R) * Real.cos (toRadians b) ∧
     Real.sin (toRadians lat) * Real.cos (d / R) +
      Real.cos (toRadians lat) * Real.sin (d / R) * Real.cos (toRadians b) ≤ 1) ∧
    ∃ q, destination (FeaturePoint.new [lng, lat]) d b u = .ok q ∧
      -90 ≤ q.coordinates.getD 1 0 ∧ q.coordinates.getD 1 0 ≤ 90 := by
  refine ⟨asin_arg_bounds (toRadians lat) (d / R) (toRadians b), _,
    destination_of_some lng lat d b u R h, ?_, ?_⟩
  · simpa [FeaturePoint.new, destCore] using
      (toDegrees_arcsin_bounds (Real.sin (toRadians lat) * Real.cos (d / R) +
        Real.cos (toRadians lat) * Real.sin (d / R) * Real.cos (toRadians b))).1
  · simpa [FeaturePoint.new, destCore] using
      (toDegrees_arcsin_bounds (Real.sin (toRadians lat) * Real.cos (d / R) +
        Real.cos (toRadians lat) * Real.sin (d / R) * Real.cos (toRadians b))).2

/-- C9 witness: origin latitude 150 (outside `[-90, 90]`) and negative
distance, unit `"radians"`. -/
theorem C9_latitude_in_range_witness :
    (-1 ≤ Real.sin (toRadians 150) * Real.cos (-2 / 1) +
      Real.cos (toRadians 150) * Real.sin (-2 / 1) * Real.cos (toRadians 7) ∧
     Real.sin (toRadians 150) * Real.cos (-2 / 1) +
      Real.cos (toRadians 150) * Real.sin (-2 / 1) * Real.cos (toRadians 7) ≤ 1) ∧
    ∃ q, destination (FeaturePoint.new [20, 150]) (-2) 7 "radians" = .ok q ∧
      -90 ≤ q.coordinates.getD 1 0 ∧ q.coordinates.getD 1 0 ≤ 90 :=
  C9_latitude_in_range 20 150 (-2) 7 "radians" 1 rfl

end
